import Mathlib

/-!
Verification development for the Hospital Bed Occupancy Prediction System
(Team_SpiritX_3.14_3).  The repository ships the React frontend only; the
FastAPI/Prophet backend that implements the Forecasting & Recommendation
Engine (spec sections 4.1 to 4.4) is not part of the source tree.  Engine
operations are therefore modelled from the specification, while the
frontend computations (risk colouring in Predictions.jsx and
BestTimeToVisit.jsx, calculateAnalytics in Analytics.jsx) are embedded
directly from the JavaScript source.
-/

namespace HospitalEngine

/-- Modelled from the spec: the ordered RiskLevel enumeration
LOW < MEDIUM < HIGH < CRITICAL of section 3 (the backend Risk Classifier
is not in the source tree). -/
inductive RiskLevel where
  | Low : RiskLevel
  | Medium : RiskLevel
  | High : RiskLevel
  | Critical : RiskLevel
deriving DecidableEq

/-- Modelled from the spec: error taxonomy of section 7 for the engine
operations (the backend error types are not in the source tree). -/
inductive EngineError where
  | InvalidHorizon : EngineError
  | InsufficientHistory : EngineError
  | EmptyForecast : EngineError
  | DivisionByZero : EngineError
deriving DecidableEq

/-- Modelled from the spec: the Risk Classifier of section 4.2 on a
utilization percentage, with fixed thresholds 85 / 70 / 50, each band
inclusive at its lower edge (the backend classifier is not in the source
tree). -/
def classify (utilization : ℚ) : RiskLevel :=
  if 85 ≤ utilization then .Critical
  else if 70 ≤ utilization then .High
  else if 50 ≤ utilization then .Medium
  else .Low

/-- Modelled from the spec: the checked entry point of the Risk Classifier
(section 4.2), computing utilization = predicted_occupancy / total_beds * 100
and failing with a DivisionByZeroError-equivalent when total_beds = 0. -/
def classifyChecked (predicted_occupancy total_beds : ℚ) :
    Except EngineError RiskLevel :=
  if total_beds = 0 then .error .DivisionByZero
  else .ok (classify (predicted_occupancy / total_beds * 100))

/-- Risk labels used by the patient-facing pages of the frontend
(strings low / medium / high in the JavaScript source). -/
inductive PageRisk where
  | low : PageRisk
  | medium : PageRisk
  | high : PageRisk
deriving DecidableEq

/-- Best-day badge risk from BestTimeToVisit.jsx line 206:
utilization >= 80 gives high, utilization >= 60 gives medium, else low. -/
def badgeRisk (utilization : ℚ) : PageRisk :=
  if 80 ≤ utilization then .high
  else if 60 ≤ utilization then .medium
  else .low

/-- Per-day card predicate from BestTimeToVisit.jsx line 262:
day.utilization_percentage >= 85. -/
def isHighRisk (utilization_percentage : ℚ) : Bool :=
  85 ≤ utilization_percentage

/-- Per-day card predicate from BestTimeToVisit.jsx line 263:
70 <= day.utilization_percentage < 85. -/
def isMediumRisk (utilization_percentage : ℚ) : Bool :=
  70 ≤ utilization_percentage ∧ utilization_percentage < 85

/-- The risk classification a per-day forecast card applies in
BestTimeToVisit.jsx lines 262 to 276: high when isHighRisk, else medium
when isMediumRisk, else the green styling. -/
def cardRisk (utilization_percentage : ℚ) : PageRisk :=
  if isHighRisk utilization_percentage then .high
  else if isMediumRisk utilization_percentage then .medium
  else .low

/-- Modelled from the spec: a ForecastPoint of section 3, one per future
day, with a point prediction and confidence bounds (the backend Forecast
Model is not in the source tree).  Days are numbered 1, 2, ... ahead of
the last historical date. -/
structure ForecastPoint where
  day : ℕ
  predicted_occupancy : ℚ
  lower_bound : ℚ
  upper_bound : ℚ
deriving DecidableEq

/-- Modelled from the spec: a conformant instance of the section 4.1
forecasting algorithm (any trend-capable time-series method is allowed by
the contract; the backend Prophet model is not in the source tree).  It
extends the linear trend of the history and applies the mandated
post-processing: predicted_occupancy, lower_bound and upper_bound are
clamped to be non-negative and are not clamped to total_beds. -/
def forecastModel (records : List ℚ) (horizon : ℕ) : List ForecastPoint :=
  let lastv := records.getLastD 0
  let firstv := records.headD 0
  let slope := (lastv - firstv) / ((records.length : ℚ) - 1)
  (List.range horizon).map (fun (k : ℕ) =>
    let raw := lastv + slope * (((k : ℚ)) + 1)
    { day := k + 1
      predicted_occupancy := max 0 raw
      lower_bound := max 0 (raw - 10)
      upper_bound := max 0 (raw + 10) })

/-- Modelled from the spec: the forecast operation of section 4.1 with its
input validation — horizon_days must be an integer in [1, 30] or the call
fails with InvalidHorizonError, and at least 14 daily records are required
or it fails with InsufficientHistoryError (the backend service is not in
the source tree). -/
def forecast (records : List ℚ) (horizon_days : ℤ) :
    Except EngineError (List ForecastPoint) :=
  if horizon_days < 1 ∨ 30 < horizon_days then .error .InvalidHorizon
  else if records.length < 14 then .error .InsufficientHistory
  else .ok (forecastModel records horizon_days.toNat)

/-- Modelled from the spec: the argmin scan behind best_day_to_visit of
section 4.4, keeping the earlier point on ties. -/
def bestPoint : List ForecastPoint → Option ForecastPoint
  | [] => none
  | p :: ps =>
    match bestPoint ps with
    | none => some p
    | some q =>
      if p.predicted_occupancy ≤ q.predicted_occupancy then some p else some q

/-- Modelled from the spec: best_day_to_visit of section 4.4 — the date of
the global minimum predicted_occupancy, ties broken by earliest date,
failing with EmptyForecastError on an empty series (the backend service is
not in the source tree). -/
def bestDayToVisit (points : List ForecastPoint) : Except EngineError ℕ :=
  match bestPoint points with
  | none => .error .EmptyForecast
  | some p => .ok p.day

/-- The four-day example series of spec section 8: predicted occupancies
120, 80, 95, 80 on days 1 to 4. -/
def tieSeries : List ForecastPoint :=
  [⟨1, 120, 110, 130⟩, ⟨2, 80, 70, 90⟩, ⟨3, 95, 85, 105⟩, ⟨4, 80, 70, 90⟩]

/-- A 14-day history, rising by 5 occupied beds per day up to a full house
of 100 beds, used to show forecasts are not clamped to capacity. -/
def risingHistory : List ℚ :=
  [35, 40, 45, 50, 55, 60, 65, 70, 75, 80, 85, 90, 95, 100]

/-- Modelled from the spec: an Alert of section 3, with severity
restricted by construction of generateAlerts (the backend Alert Generator
is not in the source tree; the human-readable message field is
presentation and is omitted). -/
structure Alert where
  day : ℕ
  severity : RiskLevel
  predicted_occupancy : ℚ
  utilization_percentage : ℚ
deriving DecidableEq

/-- Severity rank giving the strict total order
LOW < MEDIUM < HIGH < CRITICAL of section 3. -/
def sevRank : RiskLevel → ℕ
  | .Low => 0
  | .Medium => 1
  | .High => 2
  | .Critical => 3

/-- Alert ordering of section 4.3: severity descending, ties broken by
ascending date. -/
def alertLE (a b : Alert) : Prop :=
  sevRank b.severity < sevRank a.severity ∨
    (sevRank a.severity = sevRank b.severity ∧ a.day ≤ b.day)

instance : DecidableRel alertLE := fun a b => by
  unfold alertLE
  infer_instance

/-- Modelled from the spec: generate_alerts of section 4.3 — classify each
ForecastPoint, skip LOW-risk days entirely, build an Alert for the other
days, and order the result by severity descending then date ascending (the
backend Alert Generator is not in the source tree). -/
def generateAlerts (total_beds : ℚ) (points : List ForecastPoint) :
    List Alert :=
  List.insertionSort alertLE (points.filterMap (fun p =>
    let u := p.predicted_occupancy / total_beds * 100
    if classify u = .Low then none
    else some ⟨p.day, classify u, p.predicted_occupancy, u⟩))

/-- Modelled from the spec: an entry of the alternates_pool of section
4.3 — another facility in the region together with its forecasted
utilization for the alert date (the backend Alert Generator is not in the
source tree). -/
structure PoolEntry where
  fid : ℕ
  utilization : ℚ
deriving DecidableEq

/-- Ranking of alternate suggestions: ascending forecasted utilization. -/
def utilLE (a b : PoolEntry) : Prop :=
  a.utilization ≤ b.utilization

instance : DecidableRel utilLE := fun a b => by
  unfold utilLE
  infer_instance

instance : IsTotal PoolEntry utilLE :=
  ⟨fun a b => le_total a.utilization b.utilization⟩

instance : IsTrans PoolEntry utilLE :=
  ⟨fun _ _ _ hab hbc => le_trans hab hbc⟩

/-- A pool entry qualifies as an alternate when its forecast for the
alert date classifies LOW or MEDIUM (spec section 4.3). -/
def lowOrMediumRisk (e : PoolEntry) : Bool :=
  classify e.utilization = RiskLevel.Low ∨
    classify e.utilization = RiskLevel.Medium

/-- Modelled from the spec: the alternate-facility selection of section
4.3 — keep the pool entries whose same-date forecast is LOW or MEDIUM
risk, rank by ascending forecasted utilization, return at most 5; an
empty result is legitimate (the backend Alert Generator is not in the
source tree). -/
def alternatesFor (pool : List PoolEntry) : List PoolEntry :=
  (List.insertionSort utilLE (pool.filter lowOrMediumRisk)).take 5

/-- Rounding to the nearest integer with halves rounding up, the
behaviour of JavaScript Math.round on the non-negative values used here. -/
def jsRound (q : ℚ) : ℤ :=
  ⌊q + 1 / 2⌋

/-- Arithmetic mean of a list of rationals (sum divided by length). -/
def avgList (l : List ℚ) : ℚ :=
  l.sum / l.length

/-- Modelled from the spec: the per-facility input of compare_facilities
in section 4.4 — a current occupancy snapshot plus the forecast series of
predicted occupancies (the backend Recommendation Engine is not in the
source tree). -/
structure FacilityData where
  fid : ℕ
  total_beds : ℚ
  current_occupied : ℚ
  forecast_occ : List ℚ
deriving DecidableEq

/-- Modelled from the spec: a ComparisonResult of section 3 with its
facility identity, current availability, current utilization percentage,
average predicted occupancy over the horizon and integer
recommendation_score. -/
structure ComparisonResult where
  fid : ℕ
  current_available : ℚ
  utilization_percentage : ℚ
  avg_predicted_occupancy : ℚ
  recommendation_score : ℤ
deriving DecidableEq

/-- Current available-capacity fraction of a facility. -/
def currAvailFrac (f : FacilityData) : ℚ :=
  (f.total_beds - f.current_occupied) / f.total_beds

/-- Forecasted available-capacity fraction of a facility over its
forecast horizon. -/
def foreAvailFrac (f : FacilityData) : ℚ :=
  (f.total_beds - avgList f.forecast_occ) / f.total_beds

/-- Modelled from the spec: the recommendation_score of section 4.4 — an
equal-weight blend of current and forecasted available-capacity fraction
scaled to an integer in [0, 100] (the spec leaves the exact weighting as
an implementation choice; the backend Recommendation Engine is not in the
source tree). -/
def recScore (f : FacilityData) : ℤ :=
  max 0 (min 100 (jsRound (50 * currAvailFrac f + 50 * foreAvailFrac f)))

/-- Modelled from the spec: the ComparisonResult computed for one
facility. -/
def toComparison (f : FacilityData) : ComparisonResult :=
  ⟨f.fid, f.total_beds - f.current_occupied,
    f.current_occupied / f.total_beds * 100, avgList f.forecast_occ,
    recScore f⟩

/-- Total order on ComparisonResults from spec section 3:
recommendation_score descending, ties broken by lower average predicted
occupancy, then by facility identity. -/
def crLE (a b : ComparisonResult) : Prop :=
  b.recommendation_score < a.recommendation_score ∨
    (a.recommendation_score = b.recommendation_score ∧
      (a.avg_predicted_occupancy < b.avg_predicted_occupancy ∨
        (a.avg_predicted_occupancy = b.avg_predicted_occupancy ∧
          a.fid ≤ b.fid)))

instance : DecidableRel crLE := fun a b => by
  unfold crLE
  infer_instance

instance : IsTotal ComparisonResult crLE := by
  constructor
  intro a b
  unfold crLE
  rcases lt_trichotomy a.recommendation_score b.recommendation_score with
    h | h | h
  · right
    left
    exact h
  · rcases lt_trichotomy a.avg_predicted_occupancy
      b.avg_predicted_occupancy with h2 | h2 | h2
    · left
      right
      exact ⟨h, Or.inl h2⟩
    · rcases le_total a.fid b.fid with h3 | h3
      · left
        right
        exact ⟨h, Or.inr ⟨h2, h3⟩⟩
      · right
        right
        exact ⟨h.symm, Or.inr ⟨h2.symm, h3⟩⟩
    · right
      right
      exact ⟨h.symm, Or.inl h2⟩
  · left
    left
    exact h

instance : IsTrans ComparisonResult crLE := by
  constructor
  intro a b c hab hbc
  unfold crLE at hab hbc ⊢
  rcases hab with h1 | ⟨h1, h1x⟩ <;> rcases hbc with h2 | ⟨h2, h2x⟩
  · left
    exact lt_trans h2 h1
  · left
    exact h2 ▸ h1
  · left
    exact h1 ▸ h2
  · right
    refine ⟨h1.trans h2, ?_⟩
    rcases h1x with hv | ⟨hv, hf⟩ <;> rcases h2x with hw | ⟨hw, hf2⟩
    · left
      exact lt_trans hv hw
    · left
      exact hw ▸ hv
    · left
      exact hv ▸ hw
    · right
      exact ⟨hv.trans hw, hf.trans hf2⟩

/-- Modelled from the spec: compare_facilities of section 4.4 — drop
facilities with an empty forecast series, compute each ComparisonResult,
and order the batch by recommendation_score descending with the section 3
tie-breaks (the backend Recommendation Engine is not in the source
tree). -/
def compareFacilities (fs : List FacilityData) : List ComparisonResult :=
  List.insertionSort crLE
    ((fs.filter (fun f => !f.forecast_occ.isEmpty)).map toComparison)

/-- Facility with 1000 beds, 499 currently occupied and a flat forecast
of 499: availability 501 beds now and on average. -/
def facA : FacilityData :=
  ⟨1, 1000, 499, [499]⟩

/-- Facility with 1000 beds, 500 currently occupied and a flat forecast
of 500: strictly less available than facA now and on average. -/
def facB : FacilityData :=
  ⟨2, 1000, 500, [500]⟩

/-- An EHR daily record as consumed by Analytics.jsx: admissions,
discharges and occupied beds (the (r.x || 0) fallbacks of the JavaScript
make each field a plain non-negative number). -/
structure EHRRecord where
  admissions : ℕ
  discharges : ℕ
  occupied_beds : ℕ
deriving DecidableEq

/-- JavaScript Array.slice(-n): the last n elements, or the whole list
when it is shorter than n. -/
def takeLast {α : Type} (n : ℕ) (l : List α) : List α :=
  l.drop (l.length - n)

/-- The object returned by calculateAnalytics in Analytics.jsx (trend and
trendPercent, string presentation derived from the occupancy averages,
are omitted). -/
structure AnalyticsResult where
  avgOccupancy30 : ℤ
  avgOccupancy7 : ℤ
  totalAdmissions30 : ℕ
  totalDischarges30 : ℕ
  avgAdmissionsPerDay : ℤ
  avgDischargesPerDay : ℤ
  peakOccupancy : ℕ
  minOccupancy : ℕ
deriving DecidableEq

/-- Embedded from Analytics.jsx calculateAnalytics (lines 53 to 85):
null on an empty record list; slice(-7) and slice(-30) become takeLast;
Math.round becomes jsRound; the occupancy averages divide by the length
of their window while the admissions and discharges averages divide by
the constant 30; Math.max and Math.min over the non-empty window become
folds. -/
def calculateAnalytics (records : List EHRRecord) : Option AnalyticsResult :=
  if records.isEmpty then none
  else some
    { avgOccupancy30 := jsRound
        ((((takeLast 30 records).map (fun r => r.occupied_beds)).sum : ℚ) /
          ((takeLast 30 records).length : ℚ))
      avgOccupancy7 := jsRound
        ((((takeLast 7 records).map (fun r => r.occupied_beds)).sum : ℚ) /
          ((takeLast 7 records).length : ℚ))
      totalAdmissions30 :=
        ((takeLast 30 records).map (fun r => r.admissions)).sum
      totalDischarges30 :=
        ((takeLast 30 records).map (fun r => r.discharges)).sum
      avgAdmissionsPerDay := jsRound
        ((((takeLast 30 records).map (fun r => r.admissions)).sum : ℚ) / 30)
      avgDischargesPerDay := jsRound
        ((((takeLast 30 records).map (fun r => r.discharges)).sum : ℚ) / 30)
      peakOccupancy :=
        ((takeLast 30 records).map (fun r => r.occupied_beds)).foldl max 0
      minOccupancy :=
        ((takeLast 30 records).map (fun r => r.occupied_beds)).foldl min
          (((takeLast 30 records).map (fun r => r.occupied_beds)).headD 0) }

/-- Twenty-nine EHR records of one admission each: fewer than thirty
records, yet the reported daily-admissions average equals the true mean. -/
def records29 : List EHRRecord :=
  List.replicate 29 ⟨1, 0, 0⟩

/-- A single all-zero EHR record, for concrete evaluation of
calculateAnalytics. -/
def singleRecord : List EHRRecord :=
  [⟨0, 0, 0⟩]

end HospitalEngine

namespace HospitalEngine

/-- C1: the spec classifier computed from utilization =
predicted_occupancy / total_beds * 100 yields CRITICAL iff utilization is
at least 85, HIGH iff it is in [70, 85), MEDIUM iff in [50, 70), and LOW
iff below 50, for every non-negative occupancy and positive bed count. -/
theorem classify_band_characterization
    (predicted_occupancy total_beds : ℚ)
    (hocc : 0 ≤ predicted_occupancy) (hbeds : 0 < total_beds) :
    (classify (predicted_occupancy / total_beds * 100) = .Critical ↔
        85 ≤ predicted_occupancy / total_beds * 100) ∧
    (classify (predicted_occupancy / total_beds * 100) = .High ↔
        70 ≤ predicted_occupancy / total_beds * 100 ∧
          predicted_occupancy / total_beds * 100 < 85) ∧
    (classify (predicted_occupancy / total_beds * 100) = .Medium ↔
        50 ≤ predicted_occupancy / total_beds * 100 ∧
          predicted_occupancy / total_beds * 100 < 70) ∧
    (classify (predicted_occupancy / total_beds * 100) = .Low ↔
        predicted_occupancy / total_beds * 100 < 50) := by
  set u : ℚ := predicted_occupancy / total_beds * 100 with hu
  unfold classify
  split_ifs with h1 h2 h3 <;>
    refine ⟨?_, ?_, ?_, ?_⟩ <;>
    constructor <;>
    intro h <;>
    first
      | rfl
      | linarith
      | (refine ⟨?_, ?_⟩ <;> linarith)
      | (exfalso; simp_all)
      | (exfalso; rcases h with ⟨h, h4⟩; linarith)

/-- Witness for C1 at predicted_occupancy 85 and total_beds 100. -/
theorem classify_band_characterization_witness :
    (0 ≤ (85 : ℚ)) ∧ (0 < (100 : ℚ)) ∧
      (classify ((85 : ℚ) / 100 * 100) = .Critical ↔
        85 ≤ (85 : ℚ) / 100 * 100) :=
  ⟨by norm_num, by norm_num,
    (classify_band_characterization 85 100 (by norm_num) (by norm_num)).1⟩

/-- C8: classifyChecked fails with the DivisionByZeroError-equivalent iff
total_beds = 0, is otherwise the total pure classify on the utilization,
and classifies utilization above 100 percent as CRITICAL rather than
rejecting it. -/
theorem classifyChecked_error_characterization :
    (∀ predicted_occupancy total_beds : ℚ,
        classifyChecked predicted_occupancy total_beds =
            .error .DivisionByZero ↔ total_beds = 0) ∧
    (∀ predicted_occupancy total_beds : ℚ, total_beds ≠ 0 →
        classifyChecked predicted_occupancy total_beds =
          .ok (classify (predicted_occupancy / total_beds * 100))) ∧
    (∀ predicted_occupancy total_beds : ℚ, total_beds ≠ 0 →
        100 < predicted_occupancy / total_beds * 100 →
        classifyChecked predicted_occupancy total_beds = .ok .Critical) := by
  refine ⟨?_, ?_, ?_⟩
  · intro occ beds
    unfold classifyChecked
    split_ifs with h
    · simp [h]
    · simp [h]
  · intro occ beds h
    unfold classifyChecked
    simp [h]
  · intro occ beds h hu
    unfold classifyChecked classify
    rw [if_neg h, if_pos (by linarith)]

/-- Witness for C8 at total_beds 0, and at occupancy 120 over 100 beds
(utilization 120 percent, classified CRITICAL). -/
theorem classifyChecked_error_characterization_witness :
    (classifyChecked 50 0 = .error .DivisionByZero) ∧
      (classifyChecked 120 100 = .ok .Critical) :=
  ⟨(classifyChecked_error_characterization.1 50 0).2 rfl,
    classifyChecked_error_characterization.2.2 120 100 (by norm_num)
      (by norm_num)⟩

/-- C9: within BestTimeToVisit.jsx the best-day badge labels a utilization
high iff it is at least 80 and medium iff it is in [60, 80), while the
per-day cards label it high iff at least 85 and medium iff in [70, 85);
hence on every utilization in [80, 85) the badge says high while the card
says medium. -/
theorem bestTimeToVisit_badge_card_disagreement :
    (∀ u : ℚ, badgeRisk u = .high ↔ 80 ≤ u) ∧
    (∀ u : ℚ, badgeRisk u = .medium ↔ 60 ≤ u ∧ u < 80) ∧
    (∀ u : ℚ, isHighRisk u = true ↔ 85 ≤ u) ∧
    (∀ u : ℚ, isMediumRisk u = true ↔ 70 ≤ u ∧ u < 85) ∧
    (∀ u : ℚ, 80 ≤ u → u < 85 →
        badgeRisk u = .high ∧ cardRisk u = .medium) := by
  refine ⟨?_, ?_, ?_, ?_, ?_⟩
  · intro u
    unfold badgeRisk
    split_ifs with h1 h2 <;> constructor <;> intro h <;>
      first | rfl | linarith | simp_all
  · intro u
    unfold badgeRisk
    split_ifs with h1 h2 <;> constructor <;> intro h <;>
      first
        | rfl
        | (refine ⟨?_, ?_⟩ <;> linarith)
        | (exfalso; simp_all)
        | (exfalso; rcases h with ⟨h3, h4⟩; linarith)
  · intro u
    simp [isHighRisk]
  · intro u
    simp [isMediumRisk]
  · intro u h1 h2
    constructor
    · unfold badgeRisk
      rw [if_pos h1]
    · unfold cardRisk isHighRisk isMediumRisk
      rw [if_neg (by simpa using not_le.mpr h2),
        if_pos (by simp; constructor <;> linarith)]

/-- Witness for C9 at utilization 82: badge high, card medium. -/
theorem bestTimeToVisit_badge_card_disagreement_witness :
    badgeRisk 82 = .high ∧ cardRisk 82 = .medium :=
  bestTimeToVisit_badge_card_disagreement.2.2.2.2 82 (by norm_num)
    (by norm_num)

/-- C5: forecast fails with InvalidHorizonError exactly when horizon_days
is outside [1, 30], fails with InsufficientHistoryError exactly when the
horizon is valid but fewer than 14 records exist, and succeeds exactly
when the horizon is in range and at least 14 records exist (hence 0 and 31
fail, 1 and 30 succeed, 13 records fail, 14 succeed). -/
theorem forecast_validation :
    ∀ (records : List ℚ) (horizon_days : ℤ),
      (forecast records horizon_days = .error .InvalidHorizon ↔
          horizon_days < 1 ∨ 30 < horizon_days) ∧
      (forecast records horizon_days = .error .InsufficientHistory ↔
          1 ≤ horizon_days ∧ horizon_days ≤ 30 ∧ records.length < 14) ∧
      ((∃ pts, forecast records horizon_days = .ok pts) ↔
          1 ≤ horizon_days ∧ horizon_days ≤ 30 ∧ 14 ≤ records.length) := by
  intro records horizon_days
  unfold forecast
  split_ifs with h1 h2 <;>
    refine ⟨?_, ?_, ?_⟩ <;> simp_all <;> omega

/-- The helper behind C2: the scan bestPoint returns the first list entry
attaining the global minimum of predicted_occupancy. -/
theorem bestPoint_first_min :
    ∀ l : List ForecastPoint, l ≠ [] →
      ∃ i : Fin l.length,
        bestPoint l = some (l.get i) ∧
        (∀ j : Fin l.length,
            (l.get i).predicted_occupancy ≤ (l.get j).predicted_occupancy) ∧
        (∀ j : Fin l.length, j.val < i.val →
            (l.get i).predicted_occupancy < (l.get j).predicted_occupancy) := by
  intro l
  induction l with
  | nil => intro h; exact absurd rfl h
  | cons p ps ih =>
    intro _
    cases ps with
    | nil =>
      refine ⟨⟨0, by simp⟩, rfl, ?_, ?_⟩
      · intro j
        have h1 : j.val < 1 := by simpa using j.isLt
        have hj0 : j = ⟨0, by simp⟩ := Fin.ext (show j.val = 0 by omega)
        rw [hj0]
      · intro j hj
        simp at hj
    | cons q qs =>
      obtain ⟨i, hbp, hmin, hfirst⟩ := ih (by simp)
      by_cases hle :
          p.predicted_occupancy ≤ ((q :: qs).get i).predicted_occupancy
      · refine ⟨⟨0, by simp⟩, ?_, ?_, ?_⟩
        · show bestPoint (p :: q :: qs) = some p
          have hstep : bestPoint (p :: q :: qs) =
              if p.predicted_occupancy ≤
                  ((q :: qs).get i).predicted_occupancy
              then some p else some ((q :: qs).get i) := by
            rw [bestPoint, hbp]
          rw [hstep, if_pos hle]
        · intro j
          rcases j with ⟨jv, hjlt⟩
          cases jv with
          | zero => exact le_refl _
          | succ v =>
            have hv : v < (q :: qs).length := by
              simpa using Nat.lt_of_succ_lt_succ hjlt
            calc p.predicted_occupancy
                ≤ ((q :: qs).get i).predicted_occupancy := hle
              _ ≤ ((q :: qs).get ⟨v, hv⟩).predicted_occupancy := hmin ⟨v, hv⟩
        · intro j hj
          simp at hj
      · have hlt :
            ((q :: qs).get i).predicted_occupancy < p.predicted_occupancy :=
          lt_of_not_le hle
        refine ⟨⟨i.val + 1, by simpa using i.isLt⟩, ?_, ?_, ?_⟩
        · show bestPoint (p :: q :: qs) = some ((q :: qs).get i)
          have hstep : bestPoint (p :: q :: qs) =
              if p.predicted_occupancy ≤
                  ((q :: qs).get i).predicted_occupancy
              then some p else some ((q :: qs).get i) := by
            rw [bestPoint, hbp]
          rw [hstep, if_neg hle]
        · intro j
          rcases j with ⟨jv, hjlt⟩
          cases jv with
          | zero => exact le_of_lt hlt
          | succ v =>
            have hv : v < (q :: qs).length := by
              simpa using Nat.lt_of_succ_lt_succ hjlt
            exact hmin ⟨v, hv⟩
        · intro j hj
          rcases j with ⟨jv, hjlt⟩
          simp at hj
          cases jv with
          | zero => exact hlt
          | succ v =>
            have hv : v < (q :: qs).length := by
              simpa using Nat.lt_of_succ_lt_succ hjlt
            have hvi : v < i.val := by omega
            exact hfirst ⟨v, hv⟩ hvi

/-- C2: on a non-empty forecast series bestDayToVisit returns the day of
a point whose predicted_occupancy is the global minimum, strictly below
every earlier point (that is, the first occurrence of the minimum); on a
series with strictly increasing days every minimizing point has a day no
earlier than the returned one; on the series of occupancies
[120, 80, 95, 80] over days 1 to 4 it returns day 2; and on the empty
series it fails with EmptyForecastError. -/
theorem best_day_to_visit_argmin :
    (∀ l : List ForecastPoint, l ≠ [] →
        ∃ i : Fin l.length,
          bestDayToVisit l = .ok ((l.get i).day) ∧
          (∀ j : Fin l.length,
              (l.get i).predicted_occupancy ≤
                (l.get j).predicted_occupancy) ∧
          (∀ j : Fin l.length, j.val < i.val →
              (l.get i).predicted_occupancy <
                (l.get j).predicted_occupancy)) ∧
    (∀ l : List ForecastPoint,
        l.Pairwise (fun a b => a.day < b.day) → l ≠ [] →
        ∀ j : Fin l.length,
          (∀ k : Fin l.length,
              (l.get j).predicted_occupancy ≤
                (l.get k).predicted_occupancy) →
          ∃ d, bestDayToVisit l = .ok d ∧ d ≤ (l.get j).day) ∧
    (bestDayToVisit [] = .error .EmptyForecast) ∧
    (bestDayToVisit tieSeries = .ok 2) := by
  refine ⟨?_, ?_, rfl, rfl⟩
  · intro l hne
    obtain ⟨i, hbp, hmin, hfirst⟩ := bestPoint_first_min l hne
    exact ⟨i, by rw [bestDayToVisit, hbp], hmin, hfirst⟩
  · intro l hsort hne j hjmin
    obtain ⟨i, hbp, hmin, hfirst⟩ := bestPoint_first_min l hne
    refine ⟨(l.get i).day, by rw [bestDayToVisit, hbp], ?_⟩
    rcases lt_trichotomy i.val j.val with hij | hij | hij
    · exact le_of_lt (List.pairwise_iff_get.mp hsort i j hij)
    · rw [Fin.ext hij]
    · exact absurd (hfirst j hij) (not_lt.mpr (hjmin i))

/-- Witness for C2 on the concrete four-day series of the spec. -/
theorem best_day_to_visit_argmin_witness :
    ∃ i : Fin tieSeries.length,
      bestDayToVisit tieSeries = .ok ((tieSeries.get i).day) ∧
      (∀ j : Fin tieSeries.length,
          (tieSeries.get i).predicted_occupancy ≤
            (tieSeries.get j).predicted_occupancy) ∧
      (∀ j : Fin tieSeries.length, j.val < i.val →
          (tieSeries.get i).predicted_occupancy <
            (tieSeries.get j).predicted_occupancy) :=
  best_day_to_visit_argmin.1 tieSeries (by simp [tieSeries])

/-- Concrete evaluation of the modelled forecaster on the rising history:
one day ahead it predicts 105 occupied beds in a 100-bed facility. -/
theorem forecast_rising_eval :
    forecast risingHistory 1 = .ok [⟨1, 105, 95, 115⟩] := by
  norm_num [forecast, forecastModel, risingHistory, List.range_succ, max_def]

/-- C6: every ForecastPoint of a successful forecast satisfies
lower_bound less-or-equal predicted_occupancy less-or-equal upper_bound
with all three non-negative, and the values are not clamped to total_beds:
on a valid 14-day history inside a 100-bed capacity the forecast exceeds
100 beds. -/
theorem forecast_point_bounds :
    (∀ (records : List ℚ) (horizon_days : ℤ) (pts : List ForecastPoint),
        forecast records horizon_days = .ok pts →
        ∀ p ∈ pts,
          0 ≤ p.lower_bound ∧ 0 ≤ p.predicted_occupancy ∧
          0 ≤ p.upper_bound ∧
          p.lower_bound ≤ p.predicted_occupancy ∧
          p.predicted_occupancy ≤ p.upper_bound) ∧
    (∃ pts, (∀ r ∈ risingHistory, 0 ≤ r ∧ r ≤ 100) ∧
        forecast risingHistory 1 = .ok pts ∧
        ∃ p ∈ pts, 100 < p.predicted_occupancy) := by
  constructor
  · intro records horizon_days pts hok p hp
    unfold forecast at hok
    split_ifs at hok
    simp only [Except.ok.injEq] at hok
    subst hok
    simp only [forecastModel, List.mem_map] at hp
    obtain ⟨k, _, rfl⟩ := hp
    refine ⟨le_max_left _ _, le_max_left _ _, le_max_left _ _, ?_, ?_⟩
    · exact max_le_max le_rfl (by linarith)
    · exact max_le_max le_rfl (by linarith)
  · refine ⟨[⟨1, 105, 95, 115⟩], by decide, forecast_rising_eval,
      ⟨1, 105, 95, 115⟩, by simp, by norm_num⟩

/-- Witness for C6 on the single point forecast of the rising history. -/
theorem forecast_point_bounds_witness :
    0 ≤ (95 : ℚ) ∧ 0 ≤ (105 : ℚ) ∧ 0 ≤ (115 : ℚ) ∧
      (95 : ℚ) ≤ 105 ∧ (105 : ℚ) ≤ 115 :=
  forecast_point_bounds.1 risingHistory 1 [⟨1, 105, 95, 115⟩]
    forecast_rising_eval ⟨1, 105, 95, 115⟩ (by simp)

/-- C4: every Alert emitted by generateAlerts has severity MEDIUM, HIGH
or CRITICAL (never LOW), and on a forecast whose days all classify LOW
the result is the empty sequence. -/
theorem generate_alerts_skip_low :
    (∀ (total_beds : ℚ) (points : List ForecastPoint) (a : Alert),
        a ∈ generateAlerts total_beds points →
        a.severity = .Medium ∨ a.severity = .High ∨
          a.severity = .Critical) ∧
    (∀ (total_beds : ℚ) (points : List ForecastPoint),
        (∀ p ∈ points,
            classify (p.predicted_occupancy / total_beds * 100) = .Low) →
        generateAlerts total_beds points = []) := by
  constructor
  · intro total_beds points a ha
    unfold generateAlerts at ha
    rw [List.mem_insertionSort, List.mem_filterMap] at ha
    obtain ⟨p, _, hfp⟩ := ha
    simp only [] at hfp
    by_cases hcl : classify (p.predicted_occupancy / total_beds * 100) = .Low
    · rw [if_pos hcl] at hfp
      exact absurd hfp (by simp)
    · rw [if_neg hcl] at hfp
      rw [Option.some_inj] at hfp
      subst hfp
      rcases hc : classify (p.predicted_occupancy / total_beds * 100) with
        _ | _ | _ | _
      · exact absurd hc hcl
      · left; rfl
      · right; left; rfl
      · right; right; rfl
  · intro total_beds points h
    unfold generateAlerts
    have hnil : (points.filterMap (fun p =>
        let u := p.predicted_occupancy / total_beds * 100
        if classify u = .Low then none
        else some (⟨p.day, classify u, p.predicted_occupancy, u⟩ :
          Alert))) = [] := by
      rw [List.filterMap_eq_nil_iff]
      intro p hp
      simp [h p hp]
    rw [hnil]
    rfl

/-- Concrete evaluation of the modelled alert generator: a day predicted
at 90 of 100 beds yields exactly one CRITICAL alert. -/
theorem generateAlerts_critical_eval :
    generateAlerts 100 [⟨1, 90, 80, 100⟩] = [⟨1, .Critical, 90, 90⟩] := by
  norm_num [generateAlerts, classify, List.insertionSort, List.orderedInsert]

/-- Witness for C4: a 90 percent day yields a CRITICAL alert, a 30 percent
day yields no alert at all. -/
theorem generate_alerts_skip_low_witness :
    ((⟨1, .Critical, 90, 90⟩ : Alert).severity = .Medium ∨
      (⟨1, .Critical, 90, 90⟩ : Alert).severity = .High ∨
      (⟨1, .Critical, 90, 90⟩ : Alert).severity = .Critical) ∧
    generateAlerts 100 [⟨1, 30, 20, 40⟩] = [] :=
  ⟨generate_alerts_skip_low.1 100 [⟨1, 90, 80, 100⟩] ⟨1, .Critical, 90, 90⟩
      (by rw [generateAlerts_critical_eval]; exact List.mem_singleton.mpr rfl),
    generate_alerts_skip_low.2 100 [⟨1, 30, 20, 40⟩]
      (by
        intro p hp
        simp only [List.mem_singleton] at hp
        subst hp
        norm_num [classify])⟩

/-- Concrete evaluation of the alternate selection on a one-entry pool at
utilization 40 percent. -/
theorem alternatesFor_single_eval :
    alternatesFor [⟨2, (40 : ℚ)⟩] = [⟨2, 40⟩] := by
  norm_num [alternatesFor, lowOrMediumRisk, classify, List.insertionSort,
    List.orderedInsert]

/-- C7: alternate suggestions contain only facilities whose same-date
forecast classifies LOW or MEDIUM, are ranked by ascending forecasted
utilization, number at most 5, and an unqualified pool yields the empty
sequence rather than an error; concretely a facility at 90 percent is
CRITICAL while one at 40 percent is LOW and is suggested. -/
theorem alternate_facility_suggestions :
    (∀ (pool : List PoolEntry) (e : PoolEntry), e ∈ alternatesFor pool →
        classify e.utilization = .Low ∨ classify e.utilization = .Medium) ∧
    (∀ pool : List PoolEntry, List.Sorted utilLE (alternatesFor pool)) ∧
    (∀ pool : List PoolEntry, (alternatesFor pool).length ≤ 5) ∧
    (∀ pool : List PoolEntry,
        (∀ e ∈ pool, classify e.utilization ≠ .Low ∧
            classify e.utilization ≠ .Medium) →
        alternatesFor pool = []) ∧
    (classify 90 = .Critical ∧ classify 40 = .Low ∧
      (⟨2, 40⟩ : PoolEntry) ∈ alternatesFor [⟨2, 40⟩]) := by
  refine ⟨?_, ?_, ?_, ?_, ?_, ?_, ?_⟩
  · intro pool e he
    unfold alternatesFor at he
    have h1 := (List.take_sublist 5 _).subset he
    rw [List.mem_insertionSort] at h1
    have h2 := List.of_mem_filter h1
    simpa [lowOrMediumRisk] using h2
  · intro pool
    exact List.Pairwise.sublist (List.take_sublist 5 _)
      (List.sorted_insertionSort utilLE _)
  · intro pool
    unfold alternatesFor
    rw [List.length_take]
    exact min_le_left _ _
  · intro pool h
    unfold alternatesFor
    have hnil : pool.filter lowOrMediumRisk = [] := by
      rw [List.filter_eq_nil_iff]
      intro e he
      simp only [lowOrMediumRisk, decide_eq_true_eq]
      push_neg
      exact h e he
    rw [hnil]
    rfl
  · norm_num [classify]
  · norm_num [classify]
  · rw [alternatesFor_single_eval]
    exact List.mem_singleton.mpr rfl

/-- Witness for C7: the theorem applied to the one-entry pool at 40
percent utilization and to a pool whose only entry is CRITICAL. -/
theorem alternate_facility_suggestions_witness :
    (classify (40 : ℚ) = .Low ∨ classify (40 : ℚ) = .Medium) ∧
      alternatesFor [⟨9, 90⟩] = [] :=
  ⟨alternate_facility_suggestions.1 [⟨2, 40⟩] ⟨2, 40⟩
      (by rw [alternatesFor_single_eval]; exact List.mem_singleton.mpr rfl),
    alternate_facility_suggestions.2.2.2.1 [⟨9, 90⟩]
      (by
        intro e he
        simp only [List.mem_singleton] at he
        subst he
        norm_num [classify]
        decide)⟩

/-- C3 counterexample: facA has strictly more current available capacity
and strictly more forecasted available capacity than facB (both in beds
and as fractions), yet its recommendation_score is not strictly greater —
integer scaling collapses the 0.1-point advantage, so both score 50. -/
theorem compare_strict_monotonicity_fails :
    facB.total_beds - facB.current_occupied <
        facA.total_beds - facA.current_occupied ∧
    facB.total_beds - avgList facB.forecast_occ <
        facA.total_beds - avgList facA.forecast_occ ∧
    currAvailFrac facB < currAvailFrac facA ∧
    foreAvailFrac facB < foreAvailFrac facA ∧
    recScore facA = 50 ∧ recScore facB = 50 ∧
    ¬ recScore facB < recScore facA := by
  norm_num [facA, facB, avgList, currAvailFrac, foreAvailFrac, recScore,
    jsRound]

/-- C3 amended: every recommendation_score is an integer in [0, 100];
a facility whose current and forecasted available-capacity fractions are
at least another's scores at least as high (non-strict monotonicity — the
strict version fails after scaling to the 0 to 100 integer range); and
the batch is ordered by recommendation_score descending with ties broken
by lower average predicted occupancy then facility identity. -/
theorem compare_facilities_ranking :
    (∀ f : FacilityData, 0 ≤ recScore f ∧ recScore f ≤ 100) ∧
    (∀ a b : FacilityData, currAvailFrac b ≤ currAvailFrac a →
        foreAvailFrac b ≤ foreAvailFrac a → recScore b ≤ recScore a) ∧
    (∀ fs : List FacilityData,
        List.Sorted crLE (compareFacilities fs)) := by
  refine ⟨?_, ?_, ?_⟩
  · intro f
    unfold recScore
    exact ⟨le_max_left _ _, max_le (by norm_num) (min_le_left _ _)⟩
  · intro a b h1 h2
    unfold recScore
    have hfloor :
        jsRound (50 * currAvailFrac b + 50 * foreAvailFrac b) ≤
          jsRound (50 * currAvailFrac a + 50 * foreAvailFrac a) := by
      unfold jsRound
      exact Int.floor_mono (by linarith)
    exact max_le_max le_rfl (min_le_min le_rfl hfloor)
  · intro fs
    exact List.sorted_insertionSort crLE _

/-- Witness for the amended C3 at facA and facB: facB is at most as
available on both axes, so it scores at most facA. -/
theorem compare_facilities_ranking_witness :
    recScore facB ≤ recScore facA :=
  compare_facilities_ranking.2.1 facA facB
    (by norm_num [currAvailFrac, facA, facB])
    (by norm_num [foreAvailFrac, avgList, facA, facB])

/-- C10 counterexample: on twenty-nine records of one admission each
(fewer than thirty), the reported avgAdmissionsPerDay is 1 —
Math.round(29 / 30) — which is not strictly less than the true mean
29 / 29 = 1. -/
theorem calculateAnalytics_strict_mean_counterexample :
    records29.length < 30 ∧ 0 < records29.length ∧
    (calculateAnalytics records29).map (fun r => r.avgAdmissionsPerDay) =
      some 1 ∧
    ((((records29.map (fun r => r.admissions)).sum : ℕ) : ℚ)) /
      records29.length = 1 ∧
    ¬ (((1 : ℤ) : ℚ) < 1) := by
  refine ⟨by norm_num [records29], by norm_num [records29], ?_, ?_,
    by norm_num⟩
  · norm_num [calculateAnalytics, records29, takeLast, jsRound,
      List.map_replicate, List.sum_replicate]
  · norm_num [records29, List.map_replicate, List.sum_replicate]

/-- C10 amended: calculateAnalytics reports avgAdmissionsPerDay and
avgDischargesPerDay as the window sums divided by the constant 30 while
the 30-day and 7-day occupancy averages divide by the actual window
length; with fewer than 30 records the window is the whole list, and the
unrounded quotient sum / 30 strictly underestimates the true mean
whenever the summed count is positive (after Math.round the reported
integer can equal or even exceed the true mean, so the strict claim fails
only at the rounding step). -/
theorem calculateAnalytics_divisor_semantics :
    (∀ (records : List EHRRecord) (res : AnalyticsResult),
        calculateAnalytics records = some res →
        res.avgAdmissionsPerDay = jsRound
            ((((takeLast 30 records).map
              (fun r => r.admissions)).sum : ℚ) / 30) ∧
        res.avgDischargesPerDay = jsRound
            ((((takeLast 30 records).map
              (fun r => r.discharges)).sum : ℚ) / 30) ∧
        res.avgOccupancy30 = jsRound
            ((((takeLast 30 records).map
              (fun r => r.occupied_beds)).sum : ℚ) /
              ((takeLast 30 records).length : ℚ)) ∧
        res.avgOccupancy7 = jsRound
            ((((takeLast 7 records).map
              (fun r => r.occupied_beds)).sum : ℚ) /
              ((takeLast 7 records).length : ℚ))) ∧
    (∀ records : List EHRRecord, records.length ≤ 30 →
        takeLast 30 records = records) ∧
    (∀ records : List EHRRecord,
        0 < records.length → records.length < 30 →
        0 < (records.map (fun r => r.admissions)).sum →
        ((((records.map (fun r => r.admissions)).sum : ℕ) : ℚ)) / 30 <
          ((((records.map (fun r => r.admissions)).sum : ℕ) : ℚ)) /
            records.length) := by
  refine ⟨?_, ?_, ?_⟩
  · intro records res h
    unfold calculateAnalytics at h
    by_cases hemp : records.isEmpty = true
    · rw [if_pos hemp] at h
      exact absurd h (by simp)
    · rw [if_neg hemp] at h
      rw [Option.some_inj] at h
      subst h
      exact ⟨rfl, rfl, rfl, rfl⟩
  · intro records h
    unfold takeLast
    rw [Nat.sub_eq_zero_of_le h]
    exact List.drop_zero records
  · intro records h0 h30 hsum
    have hlen : (0 : ℚ) < records.length := by exact_mod_cast h0
    have hlen30 : (records.length : ℚ) < 30 := by exact_mod_cast h30
    have hsum0 : (0 : ℚ) <
        ((((records.map (fun r => r.admissions)).sum : ℕ)) : ℚ) := by
      exact_mod_cast hsum
    exact div_lt_div_of_pos_left hsum0 hlen hlen30

/-- Concrete evaluation of calculateAnalytics on the single all-zero
record. -/
theorem calculateAnalytics_single_eval :
    calculateAnalytics singleRecord = some ⟨0, 0, 0, 0, 0, 0, 0, 0⟩ := by
  norm_num [calculateAnalytics, singleRecord, takeLast, jsRound]

/-- Witness for the amended C10: the field equations at the single
all-zero record, the window identity and the strict pre-rounding
underestimate at the twenty-nine-record list. -/
theorem calculateAnalytics_divisor_semantics_witness :
    ((⟨0, 0, 0, 0, 0, 0, 0, 0⟩ : AnalyticsResult).avgAdmissionsPerDay =
        jsRound ((((takeLast 30 singleRecord).map
          (fun r => r.admissions)).sum : ℚ) / 30) ∧
      (⟨0, 0, 0, 0, 0, 0, 0, 0⟩ : AnalyticsResult).avgDischargesPerDay =
        jsRound ((((takeLast 30 singleRecord).map
          (fun r => r.discharges)).sum : ℚ) / 30) ∧
      (⟨0, 0, 0, 0, 0, 0, 0, 0⟩ : AnalyticsResult).avgOccupancy30 =
        jsRound ((((takeLast 30 singleRecord).map
          (fun r => r.occupied_beds)).sum : ℚ) /
          ((takeLast 30 singleRecord).length : ℚ)) ∧
      (⟨0, 0, 0, 0, 0, 0, 0, 0⟩ : AnalyticsResult).avgOccupancy7 =
        jsRound ((((takeLast 7 singleRecord).map
          (fun r => r.occupied_beds)).sum : ℚ) /
          ((takeLast 7 singleRecord).length : ℚ))) ∧
    takeLast 30 records29 = records29 ∧
    ((((records29.map (fun r => r.admissions)).sum : ℕ) : ℚ)) / 30 <
      ((((records29.map (fun r => r.admissions)).sum : ℕ) : ℚ)) /
        records29.length :=
  ⟨calculateAnalytics_divisor_semantics.1 singleRecord ⟨0, 0, 0, 0, 0, 0, 0, 0⟩
      calculateAnalytics_single_eval,
    calculateAnalytics_divisor_semantics.2.1 records29
      (by norm_num [records29]),
    calculateAnalytics_divisor_semantics.2.2 records29
      (by norm_num [records29]) (by norm_num [records29])
      (by norm_num [records29, List.map_replicate, List.sum_replicate])⟩

end HospitalEngine
